import Mathlib

/-!
Verification development for the staged data-ingestion pipeline
(`dlt`): a shallow embedding of the load executor (`dlt/loaders/loader.py`),
the pipeline facade (`dlt/pipeline/pipeline.py`) and the two SQL job clients
(`dlt/loaders/redshift/client.py`, `dlt/loaders/gcp/client.py`), together
with theorems about their behaviour.

Modules of the repository that are only referenced from the embedded files
(`dlt/common/storages/loader_storage.py`, `dlt/loaders/client_base.py`,
`dlt/loaders/exceptions.py`, `dlt/common/file_storage.py`) are not part of
the source tree under verification; the definitions standing in for them are
modelled from the specification and are marked as such in their doc comments.
-/

namespace Dlt

/-! ## Lexicographic order on strings

Python compares strings lexicographically by code point; `lexLe` is that
comparison on the underlying character lists. -/

def lexLe : List Char → List Char → Bool
  | [], _ => true
  | _ :: _, [] => false
  | a :: as, b :: bs => if a < b then true else if b < a then false else lexLe as bs

/-- Python string `<=` (code-point lexicographic order). -/
def strLe (a b : String) : Bool := lexLe a.data b.data

/-- Python string `<` (strict code-point lexicographic order). -/
def strLt (a b : String) : Bool := !(strLe b a)

/-! ## Load jobs and the package state machine

`LoadJobStatus` is the status literal of `dlt/loaders/typing.py`, observed in
`loader.py` through `job.status()`. A `LoadJob` is a file moving through the
`new/ → started/ → failed/ | completed/` folders of a load package. -/

/-- A load-job status: "running", "failed", "retry" or "completed". -/
inductive LoadJobStatus where
  | running
  | failed
  | retry
  | completed
deriving DecidableEq, Repr

/-- A load job as seen by the executor: its file name, the status reported by
`status()` and the text reported by `exception()` (when any). -/
structure LoadJob where
  file : String
  status : LoadJobStatus
  excMsg : Option String
deriving DecidableEq, Repr

/-- The folders of one load package (`new/`, `started/`, `failed/`,
`completed/`); `failedJobs` pairs each failed file with the content of its
`<file>.exception` sibling. -/
structure PackageState where
  newJobs : List String
  startedJobs : List String
  failedJobs : List (String × Option String)
  completedJobs : List String
deriving DecidableEq, Repr

/-- Modelled from the spec: `LoaderStorage.fail_job` (loader_storage.py is not
under the verified tree) moves the file from `started/` to `failed/` and
writes the serialized error next to it as `<file>.exception`. -/
def fail_job (st : PackageState) (file : String) (msg : Option String) : PackageState :=
  { st with startedJobs := st.startedJobs.erase file,
            failedJobs := st.failedJobs ++ [(file, msg)] }

/-- Modelled from the spec: `LoaderStorage.retry_job` moves the file from
`started/` back to `new/` so it is picked up again. -/
def retry_job (st : PackageState) (file : String) : PackageState :=
  { st with startedJobs := st.startedJobs.erase file,
            newJobs := st.newJobs ++ [file] }

/-- Modelled from the spec: `LoaderStorage.complete_job` moves the file from
`started/` to the package's `completed/` folder. -/
def complete_job (st : PackageState) (file : String) : PackageState :=
  { st with startedJobs := st.startedJobs.erase file,
            completedJobs := st.completedJobs ++ [file] }

/-- Modelled from the spec: `LoaderStorage.start_job` moves the file from
`new/` to `started/`. -/
def start_job (st : PackageState) (file : String) : PackageState :=
  { st with newJobs := st.newJobs.erase file,
            startedJobs := st.startedJobs ++ [file] }

/-- One pass of `complete_jobs` (`dlt/loaders/loader.py` lines 155-189): poll
`status()` of every live job and route it; running jobs are collected as the
remaining jobs, the others advance the package folders. Metrics calls are
omitted. -/
def complete_jobs : List LoadJob → PackageState → List LoadJob × PackageState
  | [], st => ([], st)
  | job :: rest, st =>
    match job.status with
    | .running => ((job :: (complete_jobs rest st).1), (complete_jobs rest st).2)
    | .failed => complete_jobs rest (fail_job st job.file job.excMsg)
    | .retry => complete_jobs rest (retry_job st job.file)
    | .completed => complete_jobs rest (complete_job st job.file)

/-! ## The load tick package choice (`load`, loader.py lines 193-201) -/

/-- Modelled from the spec: `LoaderStorage.list_loads` lists the load packages
under the load root in lexicographic order (`sorted(os.listdir(...))`). -/
def list_loads (packages : List String) : List String := packages.mergeSort strLe

/-- What one call of `load` does before touching any package: either an idle
tick (`TRunMetrics(True, False, 0)`) or work on a chosen `load_id`. -/
inductive LoadTick where
  | idle
  | workOn (load_id : String)
deriving DecidableEq, Repr

/-- The package-selection head of `load` (loader.py lines 193-201): list the
packages, return an idle tick when there are none, otherwise work on the
first listed package. -/
def load_tick (packages : List String) : LoadTick :=
  match list_loads packages with
  | [] => .idle
  | l :: _ => .workOn l

/-! ## Synthetic jobs and `retrieve_jobs` (loader.py lines 125-152) -/

/-- Modelled from the spec: `JobClientBase.make_job_with_status`
(client_base.py is not under the verified tree) builds a synthetic job
carrying the given status and serialized exception text. -/
def make_job_with_status (file : String) (status : LoadJobStatus) (msg : Option String) :
    LoadJob :=
  ⟨file, status, msg⟩

/-- The outcome of `client.restore_file_load` on one started file, as
discriminated by the `except` arms of `retrieve_jobs`: a restored job, a
`LoadClientTerminalException`, a `LoadClientTransientException`, or any other
exception. -/
inductive RestoreAttempt where
  | restored (job : LoadJob)
  | terminalFail (msg : String)
  | transientFail (msg : String)
  | otherFail (msg : String)
deriving DecidableEq, Repr

/-- `retrieve_jobs` (loader.py lines 125-152) on the files listed under
`started/`: each file is restored through the client; a terminal error
synthesizes a failed job and iteration continues; a transient or any other
error is re-raised, aborting the whole call (`Except.error`). No storage move
is performed. -/
def retrieve_jobs (restore : String → RestoreAttempt) :
    List String → Except String (List LoadJob)
  | [] => .ok []
  | f :: rest =>
    match restore f with
    | .restored job => (retrieve_jobs restore rest).map (fun js => job :: js)
    | .terminalFail msg =>
        (retrieve_jobs restore rest).map
          (fun js => make_job_with_status f .failed (some msg) :: js)
    | .transientFail msg => .error msg
    | .otherFail msg => .error msg

/-- Whether a `restore_file_load` outcome is handled in place by
`retrieve_jobs` (restored or terminal) rather than re-raised. -/
def handledAttempt : RestoreAttempt → Bool
  | .restored _ => true
  | .terminalFail _ => true
  | .transientFail _ => false
  | .otherFail _ => false

/-- The job that `retrieve_jobs` appends for one handled file: the restored
job itself, or the synthetic failed job for a terminal error. -/
def routeAttempt (restore : String → RestoreAttempt) (f : String) : Option LoadJob :=
  match restore f with
  | .restored job => some job
  | .terminalFail msg => some (make_job_with_status f .failed (some msg))
  | .transientFail _ => none
  | .otherFail _ => none

/-! ## Write dispositions, schema tables and `spool_job`
(loader.py lines 69-122) -/

/-- `TWriteDisposition` of `dlt/common/schema/typing.py`:
"skip", "append", "replace", "merge", "upsert". -/
inductive TWriteDisposition where
  | skip
  | append
  | replace
  | merge
  | upsert
deriving DecidableEq, Repr

/-- The part of a table definition that `spool_job` consults: the table name
and its (resolved) write disposition. -/
structure LoadTableSchema where
  name : String
  writeDisposition : TWriteDisposition
deriving DecidableEq, Repr

/-- A schema as a list of table definitions. -/
structure LoadSchema where
  tables : List LoadTableSchema
deriving DecidableEq, Repr

/-- The exceptions that can escape the body of `spool_job`, discriminated the
way its `except` arms do. `unsupportedFileFormats`, `unknownTable` and
`unsupportedWriteDisposition` stand for `LoadClientUnsupportedFileFormats`,
`LoadUnknownTableException` and `LoadClientUnsupportedWriteDisposition`. -/
inductive SpoolError where
  | unsupportedFileFormats (fmt : String) (file : String)
  | unknownTable (table : String) (file : String)
  | unsupportedWriteDisposition (table : String) (disposition : TWriteDisposition) (file : String)
  | clientTerminal (msg : String)
  | terminalValue (msg : String)
  | clientTransient (msg : String)
  | otherError (msg : String)
deriving DecidableEq, Repr

/-- Modelled from the spec: the error-classification table of §4.4
(`dlt/loaders/exceptions.py` is not under the verified tree). The
`Unsupported*` and `UnknownTable` errors are terminal (subclasses of
`LoadClientTerminalException`, caught together with `TerminalValueError` by
the first `except` arm of `spool_job`); transient and unclassified errors
fall to the second arm. -/
def isTerminalSpoolError : SpoolError → Bool
  | .unsupportedFileFormats _ _ => true
  | .unknownTable _ _ => true
  | .unsupportedWriteDisposition _ _ _ => true
  | .clientTerminal _ => true
  | .terminalValue _ => true
  | .clientTransient _ => false
  | .otherError _ => false

/-- Modelled from the spec: `pretty_format_exception` serializes the pending
exception to text (logger module is not under the verified tree). -/
def pretty_format_exception : SpoolError → String
  | .unsupportedFileFormats fmt file => "unsupported format " ++ fmt ++ " in " ++ file
  | .unknownTable table file => "unknown table " ++ table ++ " for " ++ file
  | .unsupportedWriteDisposition table _ file =>
      "unsupported write disposition on " ++ table ++ " for " ++ file
  | .clientTerminal msg => msg
  | .terminalValue msg => msg
  | .clientTransient msg => msg
  | .otherError msg => msg

/-- `get_load_table` (loader.py lines 69-77): look the table up in the
package schema, raising `LoadUnknownTableException` on `KeyError`.
`Schema.get_table` and the child-table write-disposition defaulting
(`dlt/common/schema/schema.py` is not under the verified tree) are modelled
from the spec with the disposition already resolved on the table. -/
def get_load_table (schema : LoadSchema) (tableName : String) (file : String) :
    Except SpoolError LoadTableSchema :=
  match schema.tables.find? (fun t => t.name == tableName) with
  | some t => .ok t
  | none => .error (.unknownTable tableName file)

/-- The collaborators of `spool_job`: the client capabilities
(`supported_loader_file_formats`), `LoaderStorage.parse_load_file_name`
(returning table name and file type), and the outcome of
`client.start_file_load`. -/
structure SpoolEnv where
  supportedFormats : List String
  parseLoadFileName : String → String × String
  startFileLoad : LoadTableSchema → String → Except SpoolError LoadJob

/-- The `try` body of `spool_job` (loader.py lines 84-92): parse the file
name, reject unsupported file formats, resolve the table, reject write
dispositions other than "append" and "replace", then start the load. -/
def spool_job_run (env : SpoolEnv) (schema : LoadSchema) (file : String) :
    Except SpoolError LoadJob :=
  let parsed := env.parseLoadFileName file
  if !(env.supportedFormats.contains parsed.2) then
    .error (.unsupportedFileFormats parsed.2 file)
  else
    match get_load_table schema parsed.1 file with
    | .error e => .error e
    | .ok table =>
      if !(table.writeDisposition = .append ∨ table.writeDisposition = .replace) then
        .error (.unsupportedWriteDisposition parsed.1 table.writeDisposition file)
      else env.startFileLoad table file

/-- `spool_job` (loader.py lines 80-102): on success the started job's file is
moved `new/ → started/` and the job returned; a terminal error synthesizes a
failed job for the file, which is also moved to `started/`; a transient or
unclassified error returns no job and leaves the file in `new/`. -/
def spool_job (env : SpoolEnv) (schema : LoadSchema) (file : String) (st : PackageState) :
    Option LoadJob × PackageState :=
  match spool_job_run env schema file with
  | .ok job => (some job, start_job st job.file)
  | .error e =>
    if isTerminalSpoolError e then
      let job := make_job_with_status file .failed (some (pretty_format_exception e))
      (some job, start_job st job.file)
    else (none, st)

/-- The worker pool of `spool_new_jobs`: `pool.starmap` applies `spool_job` to
each file of the chunk and collects the results in order. -/
def spool_files (env : SpoolEnv) (schema : LoadSchema) :
    List String → PackageState → List (Option LoadJob) × PackageState
  | [], st => ([], st)
  | f :: rest, st =>
    let r := spool_job env schema f st
    let rs := spool_files env schema rest r.2
    (r.1 :: rs.1, rs.2)

/-- `spool_new_jobs` (loader.py lines 105-122): take at most `workers` files
from `new/` (`list_new_jobs(load_id)[:CONFIG.WORKERS]`), spool each, return
the chunk size and the non-`None` jobs. -/
def spool_new_jobs (env : SpoolEnv) (schema : LoadSchema) (workers : Nat)
    (st : PackageState) : Nat × List (Option LoadJob) × PackageState :=
  let loadFiles := st.newJobs.take workers
  let r := spool_files env schema loadFiles st
  (loadFiles.length, r.1, r.2)

/-! ## `restore_pipeline` (pipeline.py lines 88-112) -/

/-- The fields of `state.json` that `restore_pipeline` reads. -/
structure StoredPipelineState where
  pipelineName : String
  defaultSchemaName : String
  loaderClientType : String
  loaderSchemaQualifier : String
deriving DecidableEq, Repr

/-- A pipeline working directory as `restore_pipeline` sees it: the parsed
`state.json` (when present) and the schema names available in the schema
store. -/
structure PipelineWorkingDir where
  stateFile : Option StoredPipelineState
  schemaNames : List String
deriving DecidableEq, Repr

/-- The exception `restore_pipeline` can raise internally. -/
inductive PipelineError where
  | cannotRestorePipeline (msg : String)
deriving DecidableEq, Repr

/-- The body of the outer `try` of `restore_pipeline` (pipeline.py lines
89-110): a missing `state.json` (`FileNotFoundError` from `_restore_state`), a
stored pipeline name different from the pipeline's name, or a missing default
schema each raise `CannotRestorePipelineException`. -/
def restore_pipeline_checks (pipelineName : String) (dir : PipelineWorkingDir) :
    Except PipelineError StoredPipelineState :=
  match dir.stateFile with
  | none => .error (.cannotRestorePipeline "Cannot find a valid pipeline in working dir")
  | some st =>
    if st.pipelineName ≠ pipelineName then
      .error (.cannotRestorePipeline "Expected pipeline not found")
    else if !(dir.schemaNames.contains st.defaultSchemaName) then
      .error (.cannotRestorePipeline "Default schema not found")
    else .ok st

/-- `restore_pipeline` as the caller observes it (pipeline.py lines 88-112):
the whole body runs inside `try: ... except CannotRestorePipelineException:
pass`, so the internal exception is swallowed and the call returns normally
(`.ok none`) instead of propagating the error. -/
def restore_pipeline (pipelineName : String) (dir : PipelineWorkingDir) :
    Except PipelineError (Option StoredPipelineState) :=
  match restore_pipeline_checks pipelineName dir with
  | .error (.cannotRestorePipeline _) => .ok none
  | .ok st => .ok (some st)

/-! ## `_managed_state` (pipeline.py lines 321-333) -/

/-- The pipeline state mapping (`self.state`), a small string-keyed record. -/
abbrev StateMap := List (String × String)

/-- Python `dict` assignment of one key. -/
def dict_set (d : StateMap) (k v : String) : StateMap :=
  if d.any (fun kv => kv.1 == k) then d.map (fun kv => if kv.1 == k then (k, v) else kv)
  else d ++ [(k, v)]

/-- Python `dict.clear()`. -/
def dict_clear (_ : StateMap) : StateMap := []

/-- Python `dict.update(src)`: set every key of `src` in order. -/
def dict_update (dst src : StateMap) : StateMap :=
  src.foldl (fun d kv => dict_set d kv.1 kv.2) dst

/-- Modelled from the spec: `json.dumps` of the state mapping, persisted to
`state.json` by `FileStorage.save` with an fsync-backed atomic overwrite
(file_storage.py is not under the verified tree). -/
def json_dumps (s : StateMap) : String :=
  "\x7b" ++ String.intercalate ","
    (s.map (fun kv => "\"" ++ kv.1 ++ "\":\"" ++ kv.2 ++ "\"")) ++ "\x7d"

/-- The on-disk side of the pipeline working directory: the raw content of
`state.json`, when the file exists. -/
structure PipelineDiskState where
  stateJson : Option String
deriving DecidableEq, Repr

/-- `_managed_state` (pipeline.py lines 321-333): back up a deep copy of
`self.state`, run the body (which mutates the state and either returns or
raises); on an exception restore the backup into the mapping
(`clear` + `update`) and re-raise without touching `state.json`; on success
persist the new state to `state.json`. The body is a function from the entry
state to the (possibly raised) exception and the mutated state. -/
def managed_state (body : StateMap → Option String × StateMap)
    (state : StateMap) (disk : PipelineDiskState) :
    Option String × StateMap × PipelineDiskState :=
  let backupState := state
  match body state with
  | (some exc, mutated) => (some exc, dict_update (dict_clear mutated) backupState, disk)
  | (none, newState) => (none, newState, ⟨some (json_dumps newState)⟩)

/-! ## Schema data model shared by the SQL clients
(`dlt/common/schema/typing.py`) -/

/-- `TDataType` of `dlt/common/schema/typing.py`. -/
inductive TDataType where
  | text
  | double
  | bool
  | timestamp
  | bigint
  | binary
  | complex
  | decimal
  | wei
deriving DecidableEq, Repr

/-- `THintType` of `dlt/common/schema/typing.py`. -/
inductive THintType where
  | not_null
  | partition
  | cluster
  | primary_key
  | foreign_key
  | sort
  | unique
deriving DecidableEq, Repr

/-- `COLUMN_HINTS` of `dlt/common/schema/typing.py` (a set in the source; a
fixed enumeration order is chosen here). -/
def COLUMN_HINTS : List THintType :=
  [.partition, .cluster, .primary_key, .foreign_key, .sort, .unique]

/-- `TColumnSchema` of `dlt/common/schema/typing.py`: name, data type,
nullability and the hint flags. -/
structure TColumnSchema where
  name : String
  dataType : TDataType
  nullable : Bool
  partition : Bool
  cluster : Bool
  unique : Bool
  sort : Bool
  primary_key : Bool
  foreign_key : Bool
deriving DecidableEq, Repr

/-- `c.get(hint, False)` on a column dictionary: read one hint flag
(`not_null` is not stored on columns and reads as absent). -/
def columnHint (c : TColumnSchema) : THintType → Bool
  | .not_null => false
  | .partition => c.partition
  | .cluster => c.cluster
  | .primary_key => c.primary_key
  | .foreign_key => c.foreign_key
  | .sort => c.sort
  | .unique => c.unique

/-- The hint name as it appears in error messages. -/
def hintName : THintType → String
  | .not_null => "not_null"
  | .partition => "partition"
  | .cluster => "cluster"
  | .primary_key => "primary_key"
  | .foreign_key => "foreign_key"
  | .sort => "sort"
  | .unique => "unique"

/-- Modelled from the spec: `SqlJobClientBase._create_table_update`
(client_base.py is not under the verified tree): the table update consists of
exactly the schema columns not present on the storage table ("columns present
only locally are appended"). -/
def create_table_update (schemaCols : List TColumnSchema) (storageCols : List String) :
    List TColumnSchema :=
  schemaCols.filter (fun c => !(storageCols.contains c.name))

/-- `LoadClientSchemaWillNotUpdate` raised by the `_get_table_update_sql`
methods. -/
inductive SchemaUpdateError where
  | schemaWillNotUpdate (canonicalName : String) (columns : List String) (msg : String)
deriving DecidableEq, Repr

/-! ## Redshift client (`dlt/loaders/redshift/client.py`) -/

/-- `HINT_TO_REDSHIFT_ATTR` (redshift/client.py lines 41-46); its key
enumeration order is `cluster`, `sort`. -/
def HINT_TO_REDSHIFT_ATTR : THintType → Option String
  | .cluster => some "DISTKEY"
  | .sort => some "SORTKEY"
  | _ => none

/-- Modelled from the spec: `escape_redshift_identifier` (dataset_writers.py
is not under the verified tree) quotes an identifier. -/
def escape_redshift_identifier (s : String) : String := "\"" ++ s ++ "\""

/-- `RedshiftClient._sc_t_to_pq_t` (redshift/client.py lines 293-297 with the
`SCT_TO_PGT` map); the numeric precision/scale defaults come from
`dlt/common/arithmetics.py`, which is not under the verified tree. -/
def redshift_sc_t_to_pq_t : TDataType → String
  | .complex => "varchar(max)"
  | .text => "varchar(max)"
  | .double => "double precision"
  | .bool => "boolean"
  | .timestamp => "timestamp with time zone"
  | .bigint => "bigint"
  | .binary => "varbinary"
  | .decimal => "numeric(38,9)"
  | .wei => "numeric(38,0)"

/-- `NOT NULL` generation shared by both clients (`_gen_not_null`). -/
def gen_not_null (nullable : Bool) : String := if nullable then "" else "NOT NULL"

/-- `RedshiftClient._get_column_def_sql` (redshift/client.py lines 253-256):
identifier, mapped type, hint attributes (`DISTKEY`/`SORTKEY`) and
nullability. -/
def redshift_column_def_sql (c : TColumnSchema) : String :=
  let hints := String.intercalate " "
    (([THintType.cluster, THintType.sort].filter (fun h => columnHint c h)).filterMap
      HINT_TO_REDSHIFT_ATTR)
  escape_redshift_identifier c.name ++ " " ++ redshift_sc_t_to_pq_t c.dataType ++ " " ++
    hints ++ " " ++ gen_not_null c.nullable

/-- `RedshiftClient._get_table_update_sql` (redshift/client.py lines 226-251):
build `CREATE TABLE` for a missing table or one `ALTER TABLE ... ADD COLUMN`
per new column for an existing one; when the table exists, any new column
carrying any of the `COLUMN_HINTS` flags raises
`LoadClientSchemaWillNotUpdate` before the statement is returned. `None` is
returned when the update is empty. -/
def redshift_get_table_update_sql (canonicalName : String)
    (schemaCols : List TColumnSchema) (storageCols : List String) (tableExists : Bool) :
    Except SchemaUpdateError (Option String) :=
  let newColumns := create_table_update schemaCols storageCols
  if newColumns.isEmpty then .ok none
  else
    let base := "BEGIN TRANSACTION;\n" ++
      (if !tableExists then
        "CREATE TABLE " ++ canonicalName ++ " (\n" ++
          String.intercalate ",\n" (newColumns.map redshift_column_def_sql) ++ ");"
      else
        String.intercalate "\n" (newColumns.map (fun c =>
          "ALTER TABLE " ++ canonicalName ++ "\nADD COLUMN " ++
            redshift_column_def_sql c ++ ";")))
    if tableExists then
      match COLUMN_HINTS.find? (fun h => newColumns.any (fun c => columnHint c h)) with
      | some h =>
        .error (.schemaWillNotUpdate canonicalName
          ((newColumns.filter (fun c => columnHint c h)).map (fun c => c.name))
          (hintName h ++ " requested after table was created"))
      | none => .ok (some (base ++ "\nCOMMIT TRANSACTION;"))
    else .ok (some (base ++ "\nCOMMIT TRANSACTION;"))

/-- `RedshiftClient.restore_file_load` (redshift/client.py lines 188-192):
always returns a synthetic completed job, because `RedshiftInsertLoadJob`
executes atomically inside `start_file_load`. -/
def redshift_restore_file_load (filePath : String) : LoadJob :=
  make_job_with_status filePath .completed none

/-- A successfully constructed `RedshiftInsertLoadJob` (redshift/client.py
lines 137-173): the insert ran to completion inside the constructor, so the
job only remembers its file name. -/
structure RedshiftInsertLoadJob where
  fileName : String
deriving DecidableEq, Repr

/-- `RedshiftInsertLoadJob.status` (redshift/client.py lines 144-146): this
job is always done. -/
def RedshiftInsertLoadJob.status (_ : RedshiftInsertLoadJob) : LoadJobStatus :=
  .completed

/-- The `try` body of `RedshiftClient.start_file_load` (redshift/client.py
lines 194-196): construct the insert job, whose constructor runs the whole
insert; the outcome of that insert is abstracted as an `Except`. -/
def redshift_start_file_load (insertOutcome : Except SpoolError Unit) (filePath : String) :
    Except SpoolError RedshiftInsertLoadJob :=
  match insertOutcome with
  | .ok _ => .ok ⟨filePath⟩
  | .error e => .error e

/-- Python truthiness of a string: non-empty strings are truthy. -/
def py_truthy_str (s : String) : Bool := s != ""

/-- Python's `in` on strings: contiguous-substring test. -/
def str_contains_sub (hay needle : List Char) : Bool :=
  match hay with
  | [] => needle.isEmpty
  | _ :: t => needle.isPrefixOf hay || str_contains_sub t needle

/-- The two classifications a psycopg2 `OperationalError`/`InternalError` can
receive in `RedshiftClient.start_file_load`. -/
inductive RedshiftErrorClass where
  | terminalInner
  | transientInner
deriving DecidableEq, Repr

/-- The first `except` arm of `RedshiftClient.start_file_load`
(redshift/client.py lines 197-206), classifying by the `pgerror` attribute:
two substring checks, then the literal `if "Precision exceeds maximum":`,
whose condition is the truthiness of a constant non-empty string; when every
check falls through, `LoadClientTransientInnerException` is raised. -/
def redshift_classify_operational_error (pgerror : Option String) : RedshiftErrorClass :=
  match pgerror with
  | some msg =>
    if str_contains_sub msg.data "Cannot insert a NULL value into column".data then
      .terminalInner
    else if str_contains_sub msg.data "Numeric data overflow".data then
      .terminalInner
    else if py_truthy_str "Precision exceeds maximum" then
      .terminalInner
    else .transientInner
  | none => .transientInner

/-! ## BigQuery client (`dlt/loaders/gcp/client.py`) -/

/-- Modelled from the spec: `escape_bigquery_identifier` (dataset_writers.py
is not under the verified tree) quotes an identifier with backtick fences. -/
def escape_bigquery_identifier (s : String) : String := "`" ++ s ++ "`"

/-- `BigQueryClient._sc_t_to_bq_t` with the `SCT_TO_BQT` map (gcp/client.py
lines 23-33, 315-317). -/
def bigquery_sc_t_to_bq_t : TDataType → String
  | .complex => "STRING"
  | .text => "STRING"
  | .double => "FLOAT64"
  | .bool => "BOOLEAN"
  | .timestamp => "TIMESTAMP"
  | .bigint => "INTEGER"
  | .binary => "BYTES"
  | .decimal => "NUMERIC(38,9)"
  | .wei => "BIGNUMERIC"

/-- `BigQueryClient._get_column_def_sql` (gcp/client.py lines 255-257). -/
def bigquery_column_def_sql (c : TColumnSchema) : String :=
  escape_bigquery_identifier c.name ++ " " ++ bigquery_sc_t_to_bq_t c.dataType ++ " " ++
    gen_not_null c.nullable

/-- `BigQueryClient._get_table_update_sql` (gcp/client.py lines 220-253):
build the `CREATE TABLE`/`ALTER TABLE` statement, then scan the new columns
for layout hints. A `partition` hint raises `LoadClientSchemaWillNotUpdate`
when the table exists (or when requested on more than one column); a
`cluster` hint raises when the table exists; no other hint flag is examined.
`None` is returned when the update is empty. -/
def bigquery_get_table_update_sql (canonicalName : String)
    (schemaCols : List TColumnSchema) (storageCols : List String) (tableExists : Bool) :
    Except SchemaUpdateError (Option String) :=
  let newColumns := create_table_update schemaCols storageCols
  if newColumns.isEmpty then .ok none
  else
    let base :=
      if !tableExists then
        "CREATE TABLE " ++ canonicalName ++ " (\n" ++
          String.intercalate ",\n" (newColumns.map bigquery_column_def_sql) ++ ")"
      else
        "ALTER TABLE " ++ canonicalName ++ "\n" ++
          String.intercalate ",\n"
            (newColumns.map (fun c => "ADD COLUMN " ++ bigquery_column_def_sql c))
    let clusterList :=
      (newColumns.filter (fun c => c.cluster)).map (fun c => escape_bigquery_identifier c.name)
    let partitionList :=
      (newColumns.filter (fun c => c.partition)).map (fun c => escape_bigquery_identifier c.name)
    let afterPartition : Except SchemaUpdateError String :=
      if partitionList.length > 0 then
        if tableExists then
          .error (.schemaWillNotUpdate canonicalName partitionList
            "Partition requested after table was created")
        else if partitionList.length > 1 then
          .error (.schemaWillNotUpdate canonicalName partitionList
            "Partition requested for more than one column")
        else .ok (base ++ "\nPARTITION BY DATE(" ++ partitionList.headD "" ++ ")")
      else .ok base
    match afterPartition with
    | .error e => .error e
    | .ok sql2 =>
      if clusterList.length > 0 then
        if tableExists then
          .error (.schemaWillNotUpdate canonicalName clusterList
            "Clustering requested after table was created")
        else .ok (some (sql2 ++ "\nCLUSTER BY " ++ String.intercalate "," clusterList))
      else .ok (some sql2)

/-- Whether an `Except` result is an error (a raised exception). -/
def exceptHasError {ε α : Type} : Except ε α → Bool
  | .error _ => true
  | .ok _ => false

/-! ## Concrete fixtures used by witnesses and counterexamples -/

/-- A concrete `restore_file_load` behaviour: one restorable file, one
terminally failing file, one transiently failing file. -/
def restoreFixture : String → RestoreAttempt
  | "event.t1.jsonl" => .restored ⟨"event.t1.jsonl", .running, none⟩
  | "event.t2.jsonl" => .terminalFail "bad data"
  | "event.t3.jsonl" => .transientFail "network timeout"
  | _ => .otherFail "unexpected"

/-- A concrete package schema: an `append` table and a `merge` table. -/
def spoolSchemaFixture : LoadSchema :=
  ⟨[⟨"event", .append⟩, ⟨"event_merge", .merge⟩]⟩

/-- A concrete spooling environment: jsonl-only capabilities, a file-name
parser routing one file to the `merge` table, and a `start_file_load` that
succeeds, fails transiently or fails terminally depending on the file. -/
def spoolEnvFixture : SpoolEnv :=
  ⟨["jsonl"],
   fun f => if f = "event_merge.m1.jsonl" then ("event_merge", "jsonl") else ("event", "jsonl"),
   fun _ f =>
     if f = "event.ok.jsonl" then .ok ⟨"event.ok.jsonl", .running, none⟩
     else if f = "event.net.jsonl" then .error (.clientTransient "connection reset")
     else .error (.clientTerminal "bad data")⟩

/-- A pipeline state with one entry, as right after `create_pipeline`. -/
def stateFixture : StateMap := [("pipeline_name", "p1")]

/-- A state-mutating body that raises: it overwrites a key and then fails. -/
def bodyFailFixture (s : StateMap) : Option String × StateMap :=
  (some "boom", dict_set s "pipeline_name" "other")

/-- A state-mutating body that succeeds after adding a key. -/
def bodyOkFixture (s : StateMap) : Option String × StateMap :=
  (none, dict_set s "default_schema_name" "events")

/-- An existing storage column without hints. -/
def colIdFixture : TColumnSchema :=
  ⟨"id", .bigint, false, false, false, false, false, false, false⟩

/-- A new column carrying only the `sort` layout hint. -/
def colSortHintFixture : TColumnSchema :=
  ⟨"rank", .bigint, true, false, false, false, true, false, false⟩

/-- A new column carrying only the `cluster` layout hint. -/
def colClusterHintFixture : TColumnSchema :=
  ⟨"geo", .text, true, false, true, false, false, false, false⟩

/-! # Theorems

Helper lemmas about the string order, then one theorem per claim. -/

theorem lexLe_refl (a : List Char) : lexLe a a = true := by
  induction a with
  | nil => rfl
  | cons x xs ih => simp [lexLe, lt_irrefl, ih]

theorem lexLe_trans :
    ∀ a b c : List Char, lexLe a b = true → lexLe b c = true → lexLe a c = true := by
  intro a
  induction a with
  | nil => intro b c _ _; rfl
  | cons x xs ih =>
    intro b c h1 h2
    cases b with
    | nil => simp [lexLe] at h1
    | cons y ys =>
      cases c with
      | nil => simp [lexLe] at h2
      | cons z zs =>
        simp only [lexLe] at h1 h2 ⊢
        by_cases hxy : x < y
        · by_cases hyz : y < z
          · simp [lt_trans hxy hyz]
          · by_cases hzy : z < y
            · simp [hyz, hzy] at h2
            · have hyzeq : y = z := le_antisymm (not_lt.mp hzy) (not_lt.mp hyz)
              subst hyzeq
              simp [hxy]
        · by_cases hyx : y < x
          · simp [hxy, hyx] at h1
          · have hxyeq : x = y := le_antisymm (not_lt.mp hyx) (not_lt.mp hxy)
            subst hxyeq
            simp only [lt_irrefl, if_false] at h1 ⊢
            by_cases hyz : x < z
            · simp [hyz]
            · by_cases hzy : z < x
              · simp [hyz, hzy] at h2
              · have hxzeq : x = z := le_antisymm (not_lt.mp hzy) (not_lt.mp hyz)
                subst hxzeq
                simp only [lt_irrefl, if_false] at h2 ⊢
                exact ih ys zs h1 h2

theorem lexLe_total (a b : List Char) : (lexLe a b || lexLe b a) = true := by
  induction a generalizing b with
  | nil => rfl
  | cons x xs ih =>
    cases b with
    | nil => rfl
    | cons y ys =>
      simp only [lexLe]
      by_cases hxy : x < y
      · simp [hxy]
      · by_cases hyx : y < x
        · simp [hxy, hyx]
        · simpa [hxy, hyx] using ih ys

theorem strLe_refl (a : String) : strLe a a = true := lexLe_refl a.data

theorem strLe_trans {a b c : String} (h1 : strLe a b = true) (h2 : strLe b c = true) :
    strLe a c = true :=
  lexLe_trans a.data b.data c.data h1 h2

theorem strLe_total (a b : String) : (strLe a b || strLe b a) = true :=
  lexLe_total a.data b.data

/-- C1: in one pass of `complete_jobs`, each polled job is routed by its
reported status — completed jobs move to `completed/`, failed jobs move to
`failed/` together with their exception message, retry jobs move back to
`new/`, running jobs form exactly the returned set of remaining jobs — and
the folders change in no other way (each non-running job's file also leaves
`started/`). -/
theorem complete_jobs_routes_by_status (jobs : List LoadJob) (st : PackageState) :
    (complete_jobs jobs st).1 = jobs.filter (fun j => j.status == .running) ∧
    (complete_jobs jobs st).2.completedJobs
      = st.completedJobs ++ (jobs.filter (fun j => j.status == .completed)).map LoadJob.file ∧
    (complete_jobs jobs st).2.failedJobs
      = st.failedJobs
          ++ (jobs.filter (fun j => j.status == .failed)).map (fun j => (j.file, j.excMsg)) ∧
    (complete_jobs jobs st).2.newJobs
      = st.newJobs ++ (jobs.filter (fun j => j.status == .retry)).map LoadJob.file ∧
    (complete_jobs jobs st).2.startedJobs
      = ((jobs.filter (fun j => !(j.status == .running))).map LoadJob.file).foldl
          List.erase st.startedJobs := by
  induction jobs generalizing st with
  | nil => simp [complete_jobs]
  | cons job rest ih =>
    cases hs : job.status with
    | running =>
      have h := ih st
      simp only [complete_jobs, hs, List.filter_cons, hs, beq_self_eq_true, if_pos,
        Bool.not_true, Bool.false_eq_true, if_neg, reduceCtorEq, cond_true, cond_false]
      simp [h.1, h.2.1, h.2.2.1, h.2.2.2.1, h.2.2.2.2]
    | failed =>
      have h := ih (fail_job st job.file job.excMsg)
      simp only [fail_job] at h
      simp only [complete_jobs, hs]
      simp [fail_job, h.1, h.2.1, h.2.2.1, h.2.2.2.1, h.2.2.2.2, hs,
        List.append_assoc, List.singleton_append]
    | retry =>
      have h := ih (retry_job st job.file)
      simp only [retry_job] at h
      simp only [complete_jobs, hs]
      simp [retry_job, h.1, h.2.1, h.2.2.1, h.2.2.2.1, h.2.2.2.2, hs,
        List.append_assoc, List.singleton_append]
    | completed =>
      have h := ih (complete_job st job.file)
      simp only [complete_job] at h
      simp only [complete_jobs, hs]
      simp [complete_job, h.1, h.2.1, h.2.2.1, h.2.2.2.1, h.2.2.2.2, hs,
        List.append_assoc, List.singleton_append]

/-- C2: one load tick lists the packages in lexicographic `load_id` order and
works only on the first one: with no packages the tick is idle; otherwise the
tick works on a package that is a lexicographic minimum of the existing ones,
so no work starts on `L2` while some `L1 < L2` still exists under the load
root. -/
theorem load_tick_serializes_packages (packages : List String) :
    (packages = [] → load_tick packages = .idle) ∧
    (packages ≠ [] →
      ∃ l, l ∈ packages ∧ load_tick packages = .workOn l ∧
        ∀ m ∈ packages, strLe l m = true) ∧
    (∀ L1 L2, L1 ∈ packages → strLt L1 L2 = true → load_tick packages ≠ .workOn L2) := by
  have hperm : (packages.mergeSort strLe).Perm packages := List.mergeSort_perm packages strLe
  have hsorted : List.Pairwise (fun a b => strLe a b = true) (packages.mergeSort strLe) :=
    @List.sorted_mergeSort String strLe (fun a b c h1 h2 => strLe_trans h1 h2)
      strLe_total packages
  have hmin : ∀ l tail, packages.mergeSort strLe = l :: tail →
      l ∈ packages ∧ ∀ m ∈ packages, strLe l m = true := by
    intro l tail hcons
    have hlmem : l ∈ packages := hperm.mem_iff.mp (by rw [hcons]; exact List.mem_cons_self l tail)
    refine ⟨hlmem, fun m hm => ?_⟩
    have hm' : m ∈ l :: tail := by
      rw [← hcons]
      exact hperm.mem_iff.mpr hm
    rcases List.mem_cons.mp hm' with hml | hmtail
    · rw [hml] at *
      exact strLe_refl l
    · have hp := hsorted
      rw [hcons] at hp
      exact List.rel_of_pairwise_cons hp hmtail
  refine ⟨?_, ?_, ?_⟩
  · intro hnil
    subst hnil
    simp [load_tick, list_loads]
  · intro hne
    cases hcons : packages.mergeSort strLe with
    | nil =>
      have hpnil : packages.Perm [] := hcons ▸ hperm.symm
      exact absurd hpnil.eq_nil hne
    | cons l tail =>
      obtain ⟨hlmem, hle⟩ := hmin l tail hcons
      exact ⟨l, hlmem, by simp [load_tick, list_loads, hcons], hle⟩
  · intro L1 L2 hL1 hlt hwork
    cases hcons : packages.mergeSort strLe with
    | nil =>
      have hpnil : packages.Perm [] := hcons ▸ hperm.symm
      rw [hpnil.eq_nil] at hL1
      exact absurd hL1 (List.not_mem_nil L1)
    | cons l tail =>
      have hload : load_tick packages = .workOn l := by simp [load_tick, list_loads, hcons]
      have hl2 : L2 = l := LoadTick.workOn.inj (hwork.symm.trans hload)
      obtain ⟨_, hle⟩ := hmin l tail hcons
      have h21 : strLe L2 L1 = true := by rw [hl2]; exact hle L1 hL1
      rw [strLt, h21] at hlt
      simp at hlt

/-- Witness for C2: with no packages the tick is idle, and with packages
`0002` and `0001` present no work starts on `0002`. -/
theorem load_tick_serializes_packages_witness :
    load_tick [] = .idle ∧ load_tick ["0002", "0001"] ≠ .workOn "0002" :=
  ⟨(load_tick_serializes_packages []).1 rfl,
   (load_tick_serializes_packages ["0002", "0001"]).2.2 "0001" "0002"
     (by decide) (by decide)⟩

/-- C3 (code bug): the three restore-time checks of `restore_pipeline` do
raise `CannotRestorePipelineException` internally — shown here for a missing
state file, a mismatched pipeline name and a missing default schema — but the
surrounding `except CannotRestorePipelineException: pass` swallows the
exception, so the call returns normally (`.ok`) on every input and the error
never reaches the caller. -/
theorem restore_pipeline_swallows_error :
    restore_pipeline_checks "p1" ⟨none, []⟩
      = .error (.cannotRestorePipeline "Cannot find a valid pipeline in working dir") ∧
    restore_pipeline "p1" ⟨none, []⟩ = .ok none ∧
    restore_pipeline_checks "p1" ⟨some ⟨"other", "s", "redshift", "ds"⟩, ["s"]⟩
      = .error (.cannotRestorePipeline "Expected pipeline not found") ∧
    restore_pipeline "p1" ⟨some ⟨"other", "s", "redshift", "ds"⟩, ["s"]⟩ = .ok none ∧
    restore_pipeline_checks "p1" ⟨some ⟨"p1", "s", "redshift", "ds"⟩, []⟩
      = .error (.cannotRestorePipeline "Default schema not found") ∧
    restore_pipeline "p1" ⟨some ⟨"p1", "s", "redshift", "ds"⟩, []⟩ = .ok none ∧
    (∀ (n : String) (d : PipelineWorkingDir) (e : PipelineError),
        restore_pipeline n d ≠ .error e) := by
  refine ⟨rfl, rfl, rfl, rfl, rfl, rfl, ?_⟩
  intro n d e
  unfold restore_pipeline
  cases h : restore_pipeline_checks n d with
  | ok st => simp
  | error pe => cases pe with | cannotRestorePipeline m => simp

/-- C4: `retrieve_jobs` over the files under `started/`: when every file's
`restore_file_load` outcome is handled (restored or terminal), the call
returns, in order, the restored job or a synthetic failed job per file —
iteration continues past terminal errors; when some file's outcome is
transient (or any other exception) and every file before it is handled, the
whole call aborts by re-raising. No storage move is performed, so every
started file stays in place for the next tick. -/
theorem retrieve_jobs_error_handling (restore : String → RestoreAttempt)
    (files : List String) :
    ((∀ f ∈ files, handledAttempt (restore f) = true) →
      retrieve_jobs restore files = .ok (files.filterMap (routeAttempt restore))) ∧
    (∀ pre f post, files = pre ++ f :: post →
      (∀ g ∈ pre, handledAttempt (restore g) = true) →
      handledAttempt (restore f) = false →
      ∃ msg, retrieve_jobs restore files = .error msg) := by
  constructor
  · induction files with
    | nil => intro _; rfl
    | cons f rest ih =>
      intro hall
      have hf := hall f (List.mem_cons_self f rest)
      have hrest : ∀ g ∈ rest, handledAttempt (restore g) = true :=
        fun g hg => hall g (List.mem_cons_of_mem f hg)
      have hr := ih hrest
      cases hres : restore f with
      | restored job =>
        simp [retrieve_jobs, hres, hr, List.filterMap_cons, routeAttempt, Except.map]
      | terminalFail msg =>
        simp [retrieve_jobs, hres, hr, List.filterMap_cons, routeAttempt, Except.map]
      | transientFail msg => rw [hres] at hf; simp [handledAttempt] at hf
      | otherFail msg => rw [hres] at hf; simp [handledAttempt] at hf
  · intro pre f post hsplit hpre hf
    subst hsplit
    revert hpre
    induction pre with
    | nil =>
      intro _
      simp only [List.nil_append]
      cases hres : restore f with
      | restored job => rw [hres] at hf; simp [handledAttempt] at hf
      | terminalFail msg => rw [hres] at hf; simp [handledAttempt] at hf
      | transientFail msg => exact ⟨msg, by simp [retrieve_jobs, hres]⟩
      | otherFail msg => exact ⟨msg, by simp [retrieve_jobs, hres]⟩
    | cons g pre' ih =>
      intro hpre
      have hg := hpre g (List.mem_cons_self g pre')
      have hpre' : ∀ x ∈ pre', handledAttempt (restore x) = true :=
        fun x hx => hpre x (List.mem_cons_of_mem g hx)
      obtain ⟨msg, hmsg⟩ := ih hpre'
      cases hres : restore g with
      | restored job =>
        exact ⟨msg, by simp [retrieve_jobs, hres, hmsg, Except.map]⟩
      | terminalFail m =>
        exact ⟨msg, by simp [retrieve_jobs, hres, hmsg, Except.map]⟩
      | transientFail m => rw [hres] at hg; simp [handledAttempt] at hg
      | otherFail m => rw [hres] at hg; simp [handledAttempt] at hg

/-- Witness for C4: with one restorable and one terminally failing started
file the call returns both routed jobs; inserting a transiently failing file
after the restorable one aborts the call. -/
theorem retrieve_jobs_error_handling_witness :
    retrieve_jobs restoreFixture ["event.t1.jsonl", "event.t2.jsonl"]
      = .ok ((["event.t1.jsonl", "event.t2.jsonl"]).filterMap (routeAttempt restoreFixture)) ∧
    ∃ msg, retrieve_jobs restoreFixture ["event.t1.jsonl", "event.t3.jsonl", "event.t2.jsonl"]
      = .error msg :=
  ⟨(retrieve_jobs_error_handling restoreFixture ["event.t1.jsonl", "event.t2.jsonl"]).1
     (by decide),
   (retrieve_jobs_error_handling restoreFixture
      ["event.t1.jsonl", "event.t3.jsonl", "event.t2.jsonl"]).2
     ["event.t1.jsonl"] "event.t3.jsonl" ["event.t2.jsonl"] rfl (by decide) (by decide)⟩

/-- C5: `spool_new_jobs` submits at most `workers` files from `new/` (the
chunk is `list_new_jobs[:WORKERS]`), and for each submitted file the worker
(`spool_job`) behaves as: on a successful `start_file_load`, the file is
moved `new/ → started/` before the worker returns its job; on a transient
failure no job is returned and the file stays in `new/` (the state is
untouched); on a terminal failure a synthetic failed job is returned for the
file, which is also moved out of `new/`. -/
theorem spool_new_jobs_routing (env : SpoolEnv) (schema : LoadSchema) (file : String)
    (st : PackageState) (workers : Nat) :
    (spool_new_jobs env schema workers st).1 = (st.newJobs.take workers).length ∧
    (st.newJobs.take workers).length ≤ workers ∧
    (∀ job, spool_job_run env schema file = .ok job → job.file = file →
      spool_job env schema file st
        = (some job, { st with newJobs := st.newJobs.erase file,
                               startedJobs := st.startedJobs ++ [file] })) ∧
    (∀ e, spool_job_run env schema file = .error e → isTerminalSpoolError e = false →
      spool_job env schema file st = (none, st)) ∧
    (∀ e, spool_job_run env schema file = .error e → isTerminalSpoolError e = true →
      spool_job env schema file st
        = (some (make_job_with_status file .failed (some (pretty_format_exception e))),
           { st with newJobs := st.newJobs.erase file,
                     startedJobs := st.startedJobs ++ [file] })) := by
  refine ⟨rfl, ?_, ?_, ?_, ?_⟩
  · rw [List.length_take]
    exact Nat.min_le_left _ _
  · intro job hrun hname
    simp [spool_job, hrun, start_job, hname]
  · intro e hrun hterm
    simp [spool_job, hrun, hterm]
  · intro e hrun hterm
    simp [spool_job, hrun, hterm, start_job, make_job_with_status]

/-- Witness for C5: the three worker outcomes on concrete files, and the
chunk size bound with three new files and two workers. -/
theorem spool_new_jobs_routing_witness :
    spool_job spoolEnvFixture spoolSchemaFixture "event.ok.jsonl"
        ⟨["event.ok.jsonl"], [], [], []⟩
      = (some ⟨"event.ok.jsonl", .running, none⟩, ⟨[], ["event.ok.jsonl"], [], []⟩) ∧
    spool_job spoolEnvFixture spoolSchemaFixture "event.net.jsonl"
        ⟨["event.net.jsonl"], [], [], []⟩
      = (none, ⟨["event.net.jsonl"], [], [], []⟩) ∧
    spool_job spoolEnvFixture spoolSchemaFixture "event.bad.jsonl"
        ⟨["event.bad.jsonl"], [], [], []⟩
      = (some (make_job_with_status "event.bad.jsonl" .failed
          (some (pretty_format_exception (.clientTerminal "bad data")))),
         ⟨[], ["event.bad.jsonl"], [], []⟩) ∧
    (spool_new_jobs spoolEnvFixture spoolSchemaFixture 2 ⟨["a", "b", "c"], [], [], []⟩).1
      = 2 :=
  ⟨(spool_new_jobs_routing spoolEnvFixture spoolSchemaFixture "event.ok.jsonl"
      ⟨["event.ok.jsonl"], [], [], []⟩ 2).2.2.1 ⟨"event.ok.jsonl", .running, none⟩ rfl rfl,
   (spool_new_jobs_routing spoolEnvFixture spoolSchemaFixture "event.net.jsonl"
      ⟨["event.net.jsonl"], [], [], []⟩ 2).2.2.2.1 (.clientTransient "connection reset") rfl rfl,
   (spool_new_jobs_routing spoolEnvFixture spoolSchemaFixture "event.bad.jsonl"
      ⟨["event.bad.jsonl"], [], [], []⟩ 2).2.2.2.2 (.clientTerminal "bad data") rfl rfl,
   (spool_new_jobs_routing spoolEnvFixture spoolSchemaFixture "x"
      ⟨["a", "b", "c"], [], [], []⟩ 2).1.trans (by decide)⟩

/-- C8: a job whose table carries a write disposition other than `append` or
`replace` is rejected by `spool_job` with
`LoadClientUnsupportedWriteDisposition`; that error is classified terminal,
so the job is returned as failed (with the serialized error) rather than
aborting the package. -/
theorem spool_job_rejects_unsupported_write_disposition (env : SpoolEnv)
    (schema : LoadSchema) (file tableName fileType : String) (table : LoadTableSchema)
    (st : PackageState)
    (hparse : env.parseLoadFileName file = (tableName, fileType))
    (hfmt : env.supportedFormats.contains fileType = true)
    (htable : get_load_table schema tableName file = .ok table)
    (hdisp : table.writeDisposition = .skip ∨ table.writeDisposition = .merge ∨
      table.writeDisposition = .upsert) :
    spool_job_run env schema file
      = .error (.unsupportedWriteDisposition tableName table.writeDisposition file) ∧
    isTerminalSpoolError (.unsupportedWriteDisposition tableName table.writeDisposition file)
      = true ∧
    spool_job env schema file st
      = (some (make_job_with_status file .failed (some (pretty_format_exception
          (.unsupportedWriteDisposition tableName table.writeDisposition file)))),
         start_job st file) := by
  have hrun : spool_job_run env schema file
      = .error (.unsupportedWriteDisposition tableName table.writeDisposition file) := by
    rcases hdisp with h | h | h <;>
      simp [spool_job_run, hparse, hfmt, htable, h] <;>
      simpa using hfmt
  refine ⟨hrun, ?_, ?_⟩
  · show isTerminalSpoolError
        (.unsupportedWriteDisposition tableName table.writeDisposition file) = true
    rfl
  · simp [spool_job, hrun, make_job_with_status, isTerminalSpoolError]

/-- Witness for C8: spooling a file of the `merge` table produces the
terminal unsupported-write-disposition failure. -/
theorem spool_job_rejects_unsupported_write_disposition_witness :
    spool_job_run spoolEnvFixture spoolSchemaFixture "event_merge.m1.jsonl"
      = .error (.unsupportedWriteDisposition "event_merge" .merge "event_merge.m1.jsonl") ∧
    spool_job spoolEnvFixture spoolSchemaFixture "event_merge.m1.jsonl"
        ⟨["event_merge.m1.jsonl"], [], [], []⟩
      = (some (make_job_with_status "event_merge.m1.jsonl" .failed
          (some (pretty_format_exception
            (.unsupportedWriteDisposition "event_merge" .merge "event_merge.m1.jsonl")))),
         start_job ⟨["event_merge.m1.jsonl"], [], [], []⟩ "event_merge.m1.jsonl") :=
  ⟨(spool_job_rejects_unsupported_write_disposition spoolEnvFixture spoolSchemaFixture
      "event_merge.m1.jsonl" "event_merge" "jsonl" ⟨"event_merge", .merge⟩
      ⟨["event_merge.m1.jsonl"], [], [], []⟩ rfl (by decide) rfl (Or.inr (Or.inl rfl))).1,
   (spool_job_rejects_unsupported_write_disposition spoolEnvFixture spoolSchemaFixture
      "event_merge.m1.jsonl" "event_merge" "jsonl" ⟨"event_merge", .merge⟩
      ⟨["event_merge.m1.jsonl"], [], [], []⟩ rfl (by decide) rfl (Or.inr (Or.inl rfl))).2.2⟩

/-- C6 (counterexample): the claim "any layout hint flag on a new column of
an existing table fails with `SchemaWillNotUpdate`" is false for the BigQuery
client: a new column carrying the `sort` hint on an existing table produces
the update SQL without raising; the Redshift client rejects the same input. -/
theorem bigquery_sort_hint_not_rejected :
    columnHint colSortHintFixture .sort = true ∧
    create_table_update [colIdFixture, colSortHintFixture] ["id"] = [colSortHintFixture] ∧
    exceptHasError (bigquery_get_table_update_sql "ds.event"
      [colIdFixture, colSortHintFixture] ["id"] true) = false ∧
    exceptHasError (redshift_get_table_update_sql "ds.event"
      [colIdFixture, colSortHintFixture] ["id"] true) = true :=
  ⟨rfl, rfl, rfl, rfl⟩

/-- C6 (amended): when the table already exists at the destination,
`_get_table_update_sql` raises `SchemaWillNotUpdate` whenever some new column
carries a hint flag that the client checks: the Redshift client rejects every
flag in `COLUMN_HINTS` (partition, cluster, primary_key, foreign_key, sort,
unique); the BigQuery client rejects `partition` and `cluster` (its only
materialized layout hints — other flags pass silently); hints are therefore
materialized only on `CREATE TABLE`. -/
theorem table_update_sql_rejects_hints_on_existing (canonicalName : String)
    (schemaCols : List TColumnSchema) (storageCols : List String) :
    (∀ h ∈ COLUMN_HINTS,
      (create_table_update schemaCols storageCols).any (fun c => columnHint c h) = true →
      exceptHasError
        (redshift_get_table_update_sql canonicalName schemaCols storageCols true) = true) ∧
    ((create_table_update schemaCols storageCols).any
        (fun c => c.partition || c.cluster) = true →
      exceptHasError
        (bigquery_get_table_update_sql canonicalName schemaCols storageCols true) = true) := by
  constructor
  · intro h hmem hany
    have hne : (create_table_update schemaCols storageCols).isEmpty = false := by
      rcases hx : create_table_update schemaCols storageCols with _ | ⟨c, cs⟩
      · rw [hx] at hany; simp at hany
      · rfl
    have hfind : COLUMN_HINTS.find?
        (fun hh => (create_table_update schemaCols storageCols).any
          (fun c => columnHint c hh)) ≠ none := by
      intro hnone
      have := List.find?_eq_none.mp hnone h hmem
      simp [hany] at this
    simp only [redshift_get_table_update_sql, hne, Bool.false_eq_true, if_false]
    cases hf : COLUMN_HINTS.find?
        (fun hh => (create_table_update schemaCols storageCols).any
          (fun c => columnHint c hh)) with
    | none => exact absurd hf hfind
    | some hh => simp [exceptHasError]
  · intro hany
    have hne : (create_table_update schemaCols storageCols).isEmpty = false := by
      rcases hx : create_table_update schemaCols storageCols with _ | ⟨c, cs⟩
      · rw [hx] at hany; simp at hany
      · rfl
    obtain ⟨c, hc, hpc⟩ := List.any_eq_true.mp hany
    by_cases hp : c.partition = true
    · have hplen :
          0 < ((create_table_update schemaCols storageCols).filter
            (fun c => c.partition)).length :=
        List.length_pos.mpr (List.ne_nil_of_mem (List.mem_filter.mpr ⟨hc, hp⟩))
      simp [bigquery_get_table_update_sql, hne, exceptHasError, List.length_map, hplen]
    · have hcl : c.cluster = true := by
        rcases (Bool.or_eq_true _ _).mp hpc with hx | hx
        · exact absurd hx hp
        · exact hx
      have hclen :
          0 < ((create_table_update schemaCols storageCols).filter
            (fun c => c.cluster)).length :=
        List.length_pos.mpr (List.ne_nil_of_mem (List.mem_filter.mpr ⟨hc, hcl⟩))
      rcases Nat.eq_zero_or_pos
          ((create_table_update schemaCols storageCols).filter
            (fun c => c.partition)).length with hz | hpos
      · simp [bigquery_get_table_update_sql, hne, exceptHasError, List.length_map,
          hz, hclen]
      · simp [bigquery_get_table_update_sql, hne, exceptHasError, List.length_map, hpos]

/-- Witness for C6 (amended): a new column carrying the `cluster` hint on an
existing table is rejected by both clients. -/
theorem table_update_sql_rejects_hints_on_existing_witness :
    exceptHasError (redshift_get_table_update_sql "ds.event"
      [colIdFixture, colClusterHintFixture] ["id"] true) = true ∧
    exceptHasError (bigquery_get_table_update_sql "ds.event"
      [colIdFixture, colClusterHintFixture] ["id"] true) = true :=
  ⟨(table_update_sql_rejects_hints_on_existing "ds.event"
      [colIdFixture, colClusterHintFixture] ["id"]).1 .cluster (by decide) (by decide),
   (table_update_sql_rejects_hints_on_existing "ds.event"
      [colIdFixture, colClusterHintFixture] ["id"]).2 (by decide)⟩

/-- C7: for the synchronous insert-statement backend (the Redshift client),
`restore_file_load` on any file path returns a job whose status is
`completed`, and a job created by `start_file_load` — the insert executes
fully inside `start_file_load` within a single transaction — always reports
status `completed` thereafter. -/
theorem redshift_jobs_always_completed :
    (∀ filePath, (redshift_restore_file_load filePath).status = .completed) ∧
    (∀ j : RedshiftInsertLoadJob, j.status = .completed) ∧
    (∀ (outcome : Except SpoolError Unit) (filePath : String) (j : RedshiftInsertLoadJob),
      redshift_start_file_load outcome filePath = .ok j → j.status = .completed) :=
  ⟨fun _ => rfl, fun _ => rfl, fun _ _ _ _ => rfl⟩

/-- Witness for C7: a concrete restored job and a concrete started job both
report `completed`. -/
theorem redshift_jobs_always_completed_witness :
    (redshift_restore_file_load "event.c1.insert_values").status = .completed ∧
    RedshiftInsertLoadJob.status ⟨"event.c1.insert_values"⟩ = .completed :=
  ⟨redshift_jobs_always_completed.1 "event.c1.insert_values",
   redshift_jobs_always_completed.2.2 (.ok ()) "event.c1.insert_values"
     ⟨"event.c1.insert_values"⟩ rfl⟩

theorem dict_set_absent (d : StateMap) (k v : String)
    (h : d.any (fun kv => kv.1 == k) = false) : dict_set d k v = d ++ [(k, v)] := by
  simp [dict_set, h]

theorem dict_update_of_disjoint :
    ∀ (src dst : StateMap), (∀ p ∈ src, dst.any (fun kv => kv.1 == p.1) = false) →
      (src.map Prod.fst).Nodup → dict_update dst src = dst ++ src := by
  intro src
  induction src with
  | nil => intro dst _ _; simp [dict_update]
  | cons p rest ih =>
    intro dst hdisj hnd
    have hnd' : p.1 ∉ rest.map Prod.fst ∧ (rest.map Prod.fst).Nodup :=
      List.nodup_cons.mp (by simpa [List.map_cons] using hnd)
    have h1 : dict_set dst p.1 p.2 = dst ++ [p] := by
      rw [dict_set_absent dst p.1 p.2 (hdisj p (List.mem_cons_self p rest))]
    have hrest : ∀ q ∈ rest, (dst ++ [p]).any (fun kv => kv.1 == q.1) = false := by
      intro q hq
      rw [List.any_append]
      have h2 := hdisj q (List.mem_cons_of_mem p hq)
      have h3 : p.1 ≠ q.1 := by
        intro he
        exact hnd'.1 (he ▸ List.mem_map_of_mem Prod.fst hq)
      simp [h2, h3]
    have hstep : dict_update dst (p :: rest) = dict_update (dst ++ [p]) rest := by
      simp [dict_update, h1]
    rw [hstep, ih (dst ++ [p]) hrest hnd'.2]
    simp

theorem dict_restore (backup mutated : StateMap)
    (hnd : (backup.map Prod.fst).Nodup) :
    dict_update (dict_clear mutated) backup = backup := by
  have h := dict_update_of_disjoint backup [] (fun p _ => rfl) hnd
  simpa [dict_clear] using h

/-- C9: the `_managed_state` scope: the body runs against a deep-copied
backup of the state mapping; if it raises, the in-memory mapping is restored
exactly to its value at scope entry (`clear` then `update backup`) and
`state.json` is not rewritten; if it succeeds, the new state is persisted to
`state.json` (an fsync-backed overwrite). -/
theorem managed_state_scoped (body : StateMap → Option String × StateMap)
    (state : StateMap) (disk : PipelineDiskState)
    (hnd : (state.map Prod.fst).Nodup) :
    (∀ exc mutated, body state = (some exc, mutated) →
      managed_state body state disk = (some exc, state, disk)) ∧
    (∀ newState, body state = (none, newState) →
      managed_state body state disk = (none, newState, ⟨some (json_dumps newState)⟩)) := by
  constructor
  · intro exc mutated hb
    simp [managed_state, hb, dict_restore state mutated hnd]
  · intro newState hb
    simp [managed_state, hb]

/-- Witness for C9: a failing body leaves the state and the state file as
they were; a succeeding body persists the new state. -/
theorem managed_state_scoped_witness :
    managed_state bodyFailFixture stateFixture ⟨some "old"⟩
      = (some "boom", stateFixture, ⟨some "old"⟩) ∧
    managed_state bodyOkFixture stateFixture ⟨some "old"⟩
      = (none, dict_set stateFixture "default_schema_name" "events",
         ⟨some (json_dumps (dict_set stateFixture "default_schema_name" "events"))⟩) :=
  ⟨(managed_state_scoped bodyFailFixture stateFixture ⟨some "old"⟩ (by decide)).1
     "boom" (dict_set stateFixture "pipeline_name" "other") rfl,
   (managed_state_scoped bodyOkFixture stateFixture ⟨some "old"⟩ (by decide)).2
     (dict_set stateFixture "default_schema_name" "events") rfl⟩

/-- C10: in `RedshiftClient.start_file_load`, a psycopg2
`OperationalError`/`InternalError` whose `pgerror` is not None is always
classified terminal, because the third message check
(`if "Precision exceeds maximum":`) tests the truthiness of a constant
non-empty string; the transient classification is reachable only when
`pgerror` is None. -/
theorem redshift_operational_error_classification :
    (∀ msg, redshift_classify_operational_error (some msg)
      = .terminalInner) ∧
    redshift_classify_operational_error none = .transientInner ∧
    py_truthy_str "Precision exceeds maximum" = true := by
  refine ⟨fun msg => ?_, rfl, rfl⟩
  have h3 : py_truthy_str "Precision exceeds maximum" = true := rfl
  simp [redshift_classify_operational_error, h3]

end Dlt
